import Mathlib

/-!
Shallow embedding of `src/hello_world/app.py`, a stateless Discord webhook
handler (signature verification, command dispatch, a per-user token balance
in DynamoDB, image classification with token awards).

Modelling conventions:
  - Python exceptions become an explicit `PyExc` value threaded through
    `Except`; each `try/except` of the source becomes a `match` on the
    escaping exception, honouring which exception classes each handler
    catches.
  - External effects (DynamoDB, the Discord API, the image fetch, the
    classification API) are modelled by a `World` of oracles fixing the
    outcome of each outbound call, plus an explicit state `St` carrying the
    balance table and a chronological trace of attempted effects.
  - `bytes.fromhex` is modelled concretely (`bytesFromhex`); the CPython
    error message format is reproduced (whitespace-skipping of CPython's
    `fromhex` is not modelled; all inputs used here are space-free).
  - `requests.Response.raise_for_status` raises exactly when
    `400 <= status < 600`.
  - JSON parsing (`json.loads`) and base64 transport decoding are oracles
    in `World`; only the envelope fields the source reads are retained.
-/

namespace App

/-- Decidable equality for `Except`, used to evaluate concrete runs. -/
instance {ε α : Type} [DecidableEq ε] [DecidableEq α] : DecidableEq (Except ε α) := fun a b =>
  match a, b with
  | .ok x, .ok y => decidable_of_iff (x = y) (by simp)
  | .error x, .error y => decidable_of_iff (x = y) (by simp)
  | .ok _, .error _ => isFalse (by simp)
  | .error _, .ok _ => isFalse (by simp)

/-- Python exception classes distinguished by the handlers in app.py. -/
inductive PyExc where
  | valueError (msg : String)
  | badSignatureError
  | keyError (msg : String)
  | indexError
  | requestException
  | httpError
  | urlError
  | unboundLocalError (name : String)
  deriving DecidableEq, Repr

/-- Matches `except ValueError` (binascii.Error and nacl ValueError are subclasses). -/
def PyExc.isValueError : PyExc → Bool
  | .valueError _ => true
  | _ => false

/-- Matches `except KeyError`. -/
def PyExc.isKeyError : PyExc → Bool
  | .keyError _ => true
  | _ => false

/-- Matches `except requests.RequestException` (HTTPError is a subclass).
`URLError` and `UnboundLocalError` are not requests exceptions. -/
def PyExc.isRequestExc : PyExc → Bool
  | .requestException => true
  | .httpError => true
  | _ => false

/-- Fields of the interaction envelope that app.py reads. An absent field is
`none`; accesses via `[...]` raise `KeyError` on `none`, accesses via `.get`
return `None`. -/
structure BodyJson where
  type? : Option Int := none
  id? : Option String := none
  token? : Option String := none
  memberUserId? : Option String := none
  dataName? : Option String := none
  dataOptions? : Option (List String) := none
  deriving DecidableEq, Repr

/-- Observable effects of one request, in chronological order. -/
inductive Eff where
  | readBalance (user : String)
  | writeBalance (user : String) (amount : Int)
  | dmChannelCreate (user : String)
  | dmMessageSend (channel : String)
  | callbackPost (content : String)
  | httpGetImage (url : String)
  | urllibGet (url : String)
  | openaiPost
  deriving DecidableEq, Repr

/-- Mutable state threaded through a request: the DynamoDB users table
(an association list user id to token count) and the effect trace. -/
structure St where
  db : List (String × Int)
  trace : List Eff
  deriving DecidableEq, Repr

/-- Outcomes of the outbound calls and the request-independent configuration.
`none` for an HTTP oracle means the transport call itself raised
`requests.RequestException` (no response object was bound). -/
structure World where
  publicKey : String
  apiKey : Option String
  jsonLoads : String → Option BodyJson
  b64decode : String → Except String String
  b64encode : String → String
  ed25519Valid : String → List Nat → Bool
  db : List (String × Int)
  getItemRaises : Bool
  updateItemRaises : Bool
  callbackResp : Option (Nat × String)
  dmChannelResp : Option (Nat × Option String)
  dmMessageResp : Option Nat
  imageResp : Option (Nat × String × String)
  urllibResp : Option String
  openaiResp : Option (Nat × Option String)

/-- Truthiness test Python applies to a possibly-missing header value:
`not signature` is true when the header is absent or the empty string. -/
def pyFalsy : Option String → Bool
  | none => true
  | some s => s == ""

/-- Status values for which `raise_for_status` raises `HTTPError`. -/
def statusRaises (status : Nat) : Bool :=
  decide (400 ≤ status ∧ status < 600)

/-- Value of a hexadecimal digit character. -/
def hexVal? (c : Char) : Option Nat :=
  if '0' ≤ c ∧ c ≤ '9' then some (c.toNat - '0'.toNat)
  else if 'a' ≤ c ∧ c ≤ 'f' then some (c.toNat - 'a'.toNat + 10)
  else if 'A' ≤ c ∧ c ≤ 'F' then some (c.toNat - 'A'.toNat + 10)
  else none

/-- Error text CPython attaches to the ValueError from `bytes.fromhex`. -/
def fromhexErrMsg (i : Nat) : String :=
  "non-hexadecimal number found in fromhex() arg at position " ++ toString i

/-- Worker for `bytesFromhex`: consumes hex digits two at a time, tracking
the position for the error message. -/
def fromhexAux : List Char → Nat → Except String (List Nat)
  | [], _ => .ok []
  | [_], i => .error (fromhexErrMsg i)
  | c1 :: c2 :: rest, i =>
    match hexVal? c1 with
    | none => .error (fromhexErrMsg i)
    | some h =>
      match hexVal? c2 with
      | none => .error (fromhexErrMsg (i + 1))
      | some l =>
        match fromhexAux rest (i + 2) with
        | .error m => .error m
        | .ok bs => .ok ((16 * h + l) :: bs)

/-- Model of `bytes.fromhex`: a byte list on success, a ValueError message on
a non-hex character or an odd-length input. -/
def bytesFromhex (s : String) : Except String (List Nat) :=
  fromhexAux s.data 0

/-- Helper for the substring test: whether `pat` starts the list `s`. -/
def isPrefixL : List Char → List Char → Bool
  | [], _ => true
  | _ :: _, [] => false
  | a :: as, b :: bs => a == b && isPrefixL as bs

/-- Helper for the substring test: whether `pat` occurs inside `s`. -/
def isSubL (pat : List Char) : List Char → Bool
  | [] => pat.isEmpty
  | c :: rest => isPrefixL pat (c :: rest) || isSubL pat rest

/-- Model of the Python expression `pat in hay` on strings: case-sensitive
contiguous substring occurrence. -/
def pyIn (pat hay : String) : Bool :=
  isSubL pat.data hay.data

/-- Lookup in the users table. -/
def dbGet (db : List (String × Int)) (u : String) : Option Int :=
  match db.find? (fun p => p.1 == u) with
  | some p => some p.2
  | none => none

/-- Upsert into the users table. -/
def dbSet (db : List (String × Int)) (u : String) (v : Int) : List (String × Int) :=
  match db with
  | [] => [(u, v)]
  | p :: rest => if p.1 == u then (u, v) :: rest else p :: dbSet rest u v

/-- Body of a lambda response: `json.dumps` output of the three shapes the
source constructs. `json.dumps` is injective on these shapes, so the
structured value stands for the rendered string. -/
inductive RespBody where
  | errJson (message : String)
  | typeAck
  | raw (text : String)
  deriving DecidableEq, Repr

/-- Response dictionary returned by the lambda. -/
structure Response where
  statusCode : Nat
  headers : List (String × String)
  body : RespBody
  deriving DecidableEq, Repr

/-- Headers attached by every response builder in app.py. -/
def stdHeaders : List (String × String) :=
  [("Content-Type", "application/json"), ("Access-Control-Allow-Origin", "*")]

/-- Source `error_response(status_code, message)`. -/
def error_response (statusCode : Nat) (message : String) : Response :=
  { statusCode := statusCode, headers := stdHeaders, body := .errJson message }

/-- Source `successful_response(body)`; only ever called with the type-1
acknowledgement payload. -/
def successful_response (body : RespBody) : Response :=
  { statusCode := 200, headers := stdHeaders, body := body }

/-- Source `get_user_tokens`: a `get_item` attempt; any storage exception is
caught and degrades to 0, a missing record reads as 0. -/
def get_user_tokens (w : World) (user_id : String) (st : St) : St × Int :=
  let st :=  { st with trace := st.trace ++ [.readBalance user_id] }
  if w.getItemRaises then (st, 0)
  else (st, (dbGet st.db user_id).getD 0)

/-- Source `update_user_tokens`: an `update_item` attempt with upsert
semantics `tokens = if_not_exists(tokens, 0) + amount`; any storage
exception is caught and logged, leaving the table unchanged. -/
def update_user_tokens (w : World) (user_id : String) (amount : Int) (st : St) : St :=
  let st := { st with trace := st.trace ++ [.writeBalance user_id amount] }
  if w.updateItemRaises then st
  else { st with db := dbSet st.db user_id ((dbGet st.db user_id).getD 0 + amount) }

/-- Source `send_interaction_response`: posts the type-4 payload whose
`data.content` is `content` to the interaction callback URL; a transport
exception or an error status (`raise_for_status`) is caught and becomes the
500 failure response, otherwise the upstream status and text pass through. -/
def send_interaction_response (w : World) (iid itok : Option String) (content : String)
    (st : St) : St × Response :=
  let st := { st with trace := st.trace ++ [.callbackPost content] }
  match w.callbackResp with
  | none => (st, error_response 500 "Failed to send interaction response")
  | some (status, text) =>
    if statusRaises status then (st, error_response 500 "Failed to send interaction response")
    else (st, { statusCode := status, headers := stdHeaders, body := .raw text })

/-- Characterization of the reply `send_interaction_response` produces: it
depends only on the callback oracle, not on the request state. -/
def callbackView (w : World) : Response :=
  match w.callbackResp with
  | none => error_response 500 "Failed to send interaction response"
  | some (s, t) =>
    if statusRaises s then error_response 500 "Failed to send interaction response"
    else { statusCode := s, headers := stdHeaders, body := .raw t }

/-- Source `send_dm_with_embed`: creates a DM channel, then posts the receipt
embed. Only `requests.RequestException` is caught; a channel-creation
response that passes `raise_for_status` but lacks an `id` field makes
`response.json()` field `id` raise `KeyError`, which escapes. The returned
`Option PyExc` is the escaping exception, if any. -/
def send_dm_with_embed (w : World) (user_id item : String) (price : Int)
    (st : St) : St × Option PyExc :=
  let st := { st with trace := st.trace ++ [.dmChannelCreate user_id] }
  match w.dmChannelResp with
  | none => (st, none)
  | some (status, idField) =>
    if statusRaises status then (st, none)
    else
      match idField with
      | none => (st, some (.keyError "id"))
      | some channel_id =>
        let st := { st with trace := st.trace ++ [.dmMessageSend channel_id] }
        match w.dmMessageResp with
        | none => (st, none)
        | some _ => (st, none)

/-- Access `body_json[data][options][0][value]`: `KeyError` when
`data` or `options` is missing, `IndexError` when the option list is empty. -/
def getOption0 (bj : BodyJson) : Except PyExc String :=
  match bj.dataOptions? with
  | none => .error (.keyError "data")
  | some [] => .error .indexError
  | some (v :: _) => .ok v

/-- Shop catalog literal repeated in `shop_command` and `buy_command`. -/
def shop_items : List (String × Int) :=
  [("item1", 10), ("item2", 20), ("item3", 30)]

/-- Source `balance_command`: the only exception its body can raise is the
`KeyError` from `body_json[member][user][id]`, caught as the 400
invalid-user response. -/
def balance_command (w : World) (bj : BodyJson) (iid itok : Option String)
    (st : St) : St × Response :=
  match bj.memberUserId? with
  | none => (st, error_response 400 "Invalid user information")
  | some user_id =>
    let (st, tokens) := get_user_tokens w user_id st
    send_interaction_response w iid itok
      ("<@" ++ user_id ++ ">, you have " ++ toString tokens ++ " tokens.") st

/-- Source `shop_command`: renders the static catalog; its body cannot raise,
so the local `except Exception` branch is dead. -/
def shop_command (w : World) (bj : BodyJson) (iid itok : Option String)
    (st : St) : St × Response :=
  let shop_list := String.intercalate "\n"
    (shop_items.map (fun p => p.1 ++ ": " ++ toString p.2 ++ " tokens"))
  send_interaction_response w iid itok ("**Shop Items:**\n" ++ shop_list) st

/-- Continuation of `buy_command` after the balance decrement (source lines
157-168 success path): the DM notification attempt followed by the
interaction reply with the confirmation message. A `KeyError` escaping the
DM helper is caught by buy_command's own `except KeyError` (the 400
invalid-item response); any other escape propagates. -/
def buy_success_reply (w : World) (iid itok : Option String) (user_id item : String)
    (price : Int) (st : St) : St × Except PyExc Response :=
  let message := "<@" ++ user_id ++ ">, you bought " ++ item ++ " for "
    ++ toString price ++ " tokens!"
  let (st, dmExc) := send_dm_with_embed w user_id item price st
  match dmExc with
  | some e =>
    if e.isKeyError then (st, .ok (error_response 400 "Invalid item"))
    else (st, .error e)
  | none =>
    let (st, r) := send_interaction_response w iid itok message st
    (st, .ok r)

/-- Source `buy_command`. Mirrors the source structure: the message is chosen
by the catalog/balance branch, then a single `send_interaction_response`
replies. Only `KeyError` is caught (the 400 invalid-item response); the
`IndexError` from `options[0]` and any non-KeyError escape propagate. -/
def buy_command (w : World) (bj : BodyJson) (iid itok : Option String)
    (st : St) : St × Except PyExc Response :=
  match bj.memberUserId? with
  | none => (st, .ok (error_response 400 "Invalid item"))
  | some user_id =>
    match getOption0 bj with
    | .error e =>
      if e.isKeyError then (st, .ok (error_response 400 "Invalid item"))
      else (st, .error e)
    | .ok item =>
      match shop_items.find? (fun p => p.1 == item) with
      | some pr =>
        let price := pr.2
        let (st, current_tokens) := get_user_tokens w user_id st
        if price ≤ current_tokens then
          let st := update_user_tokens w user_id (-price) st
          buy_success_reply w iid itok user_id item price st
        else
          let message := "<@" ++ user_id ++ ">, you don\x27t have enough tokens to buy "
            ++ item ++ "!"
          let (st, r) := send_interaction_response w iid itok message st
          (st, .ok r)
      | none =>
        let message := "<@" ++ user_id ++ ">, the item " ++ item
          ++ " does not exist in the shop."
        let (st, r) := send_interaction_response w iid itok message st
        (st, .ok r)

/-- Fixed taxonomy table of `extract_tokens_from_description`. -/
def token_mapping : List (String × Nat) :=
  [("Plastic", 1), ("Paper", 1), ("Glass", 2), ("Metal", 3), ("Organic", 1),
   ("Textile", 2), ("Electronic", 4), ("Wood", 2), ("Rubber", 3), ("Ceramic", 2),
   ("Composite", 2), ("Hazardous", 5), ("Medical", 4), ("Miscellaneous", 1)]

/-- Source `extract_tokens_from_description`: scans the free text for each
category keyword by case-sensitive substring test and sums the point values
of the matched categories. -/
def extract_tokens_from_description (description : String) : Nat :=
  token_mapping.foldl (fun acc p => if pyIn p.1 description then acc + p.2 else acc) 0

/-- Source `encode_image`: base64 transport encoding, an oracle here. -/
def encode_image (w : World) (image_bytes : String) : String :=
  w.b64encode image_bytes

/-- Source `download_image_with_urllib`: one urllib fetch; a `URLError` is
logged and then re-raised. -/
def download_image_with_urllib (w : World) (url : String) (st : St) :
    St × Except PyExc String :=
  let st := { st with trace := st.trace ++ [.urllibGet url] }
  match w.urllibResp with
  | none => (st, .error .urlError)
  | some content => (st, .ok content)

/-- Source `download_image`: primary `requests.get` fetch. When the transport
call itself raises (no response object bound), the except block's debug print
`response.status_code` touches the unbound local `response` and raises
`UnboundLocalError`, so the urllib fallback is never reached; when
`raise_for_status` raises (response bound), the prints succeed and the
fallback runs. A non-image content type raises `ValueError`, which the local
`except requests.exceptions.RequestException` does not catch. -/
def download_image (w : World) (url : String) (st : St) : St × Except PyExc String :=
  let st := { st with trace := st.trace ++ [.httpGetImage url] }
  match w.imageResp with
  | none => (st, .error (.unboundLocalError "response"))
  | some (status, contentType, content) =>
    if statusRaises status then download_image_with_urllib w url st
    else if pyIn "image" contentType then (st, .ok content)
    else (st, .error (.valueError ("Unexpected content type: " ++ contentType)))

/-- Response chosen by the except clauses of `submit_image_command`, in
source order: `HTTPError`, then `RequestException`, then `KeyError`, then
`Exception`. -/
def submitExcResponse (e : PyExc) : Response :=
  if e == .httpError then error_response 500 "Failed to analyze the image"
  else if e.isRequestExc then error_response 500 "Failed to analyze the image"
  else if e.isKeyError then error_response 500 "Failed to process the image"
  else error_response 500 "Failed to analyze the image"

/-- Source `submit_image_command`: field extraction, image download, the
classification API call, token extraction, a balance write then a balance
read, and the interaction reply. Every exception its body raises is caught
by one of its four except clauses, so it always returns a response. -/
def submit_image_command (w : World) (bj : BodyJson) (iid itok : Option String)
    (api_key : Option String) (st : St) : St × Response :=
  match bj.memberUserId? with
  | none => (st, submitExcResponse (.keyError "member"))
  | some user_id =>
    match getOption0 bj with
    | .error e => (st, submitExcResponse e)
    | .ok attachment_url =>
      match download_image w attachment_url st with
      | (st, .error e) => (st, submitExcResponse e)
      | (st, .ok image_bytes) =>
        let base64_image := encode_image w image_bytes
        let st := { st with trace := st.trace ++ [.openaiPost] }
        match w.openaiResp with
        | none => (st, submitExcResponse .requestException)
        | some (status, contentField) =>
          if statusRaises status then (st, submitExcResponse .httpError)
          else
            match contentField with
            | none => (st, submitExcResponse (.keyError "choices"))
            | some description =>
              let token_amount := extract_tokens_from_description description
              let st := update_user_tokens w user_id (Int.ofNat token_amount) st
              let (st, new_balance) := get_user_tokens w user_id st
              let _ := base64_image
              send_interaction_response w iid itok
                ("<@" ++ user_id ++ ">, here is what I found in the image:\n"
                  ++ description ++ "\nYou have earned " ++ toString token_amount
                  ++ " tokens. Your new balance is " ++ toString new_balance
                  ++ " tokens.") st

/-- Source `handle_command`: dispatch on `data.name`; `KeyError` escaping a
handler becomes the 400 invalid-payload response, any other exception the
500 internal-error response. -/
def handle_command (w : World) (bj : BodyJson) (iid itok : Option String)
    (st : St) : St × Response :=
  let command := bj.dataName?
  if command == some "balance" then balance_command w bj iid itok st
  else if command == some "shop" then shop_command w bj iid itok st
  else if command == some "buy" then
    match buy_command w bj iid itok st with
    | (st, .ok r) => (st, r)
    | (st, .error e) =>
      if e.isKeyError then (st, error_response 400 "Invalid request payload")
      else (st, error_response 500 "Internal server error")
  else if command == some "submit_image" then
    submit_image_command w bj iid itok w.apiKey st
  else (st, error_response 400 "Unknown command")

/-- Initial request state: the table as configured, an empty trace. -/
def initSt (w : World) : St :=
  { db := w.db, trace := [] }

/-- Inbound event: the two signature headers, the body, and the transport
base64 flag. -/
structure Event where
  signature? : Option String
  timestamp? : Option String
  body : String
  isBase64Encoded : Bool

/-- Try-block of `lambda_handler`, with the exception that escapes it made
explicit. Order of operations follows the source exactly: header presence
check, transport base64 decode, `json.loads` (returning the 400 invalid-JSON
response on parse failure), then key construction and signature verification
(only `BadSignatureError` is converted to the 401 response; the `ValueError`
from a malformed hex signature or a wrong-length key or signature escapes),
then the type-1 ping answer, then command dispatch. -/
def lambda_core (w : World) (e : Event) (st : St) : St × Except PyExc Response :=
  if pyFalsy e.signature? || pyFalsy e.timestamp? then
    (st, .error (.valueError "Missing signature or timestamp"))
  else
    let signature := e.signature?.getD ""
    let timestamp := e.timestamp?.getD ""
    match (if e.isBase64Encoded then w.b64decode e.body else .ok e.body) with
    | .error m => (st, .error (.valueError m))
    | .ok body =>
      match w.jsonLoads body with
      | none => (st, .ok (error_response 400 "Invalid JSON"))
      | some body_json =>
        match bytesFromhex w.publicKey with
        | .error m => (st, .error (.valueError m))
        | .ok keyBytes =>
          if keyBytes.length ≠ 32 then
            (st, .error (.valueError "The key must be exactly 32 bytes long"))
          else
            match bytesFromhex signature with
            | .error m => (st, .error (.valueError m))
            | .ok sigBytes =>
              if sigBytes.length ≠ 64 then
                (st, .error (.valueError "The signature must be exactly 64 bytes long"))
              else if ! w.ed25519Valid (timestamp ++ body) sigBytes then
                (st, .ok (error_response 401 "Invalid request signature"))
              else if body_json.type? == some 1 then
                (st, .ok (successful_response .typeAck))
              else
                let interaction_id := body_json.id?
                let interaction_token := body_json.token?
                let (st, r) := handle_command w body_json interaction_id interaction_token st
                (st, .ok r)

/-- Source `lambda_handler`: runs the try-block from the initial state and
applies the outer except clauses: `ValueError` becomes a 400 response whose
message is `str(e)`, anything else the 500 internal-error response. -/
def lambda_handler (w : World) (e : Event) : St × Response :=
  match lambda_core w e (initSt w) with
  | (st, .ok r) => (st, r)
  | (st, .error exc) =>
    match exc with
    | .valueError m => (st, error_response 400 m)
    | _ => (st, error_response 500 "Internal server error")

/-- Hex spelling of a 32-byte public key (all zero bytes). -/
def pkHex : String := String.mk (List.replicate 64 '0')

/-- Hex spelling of a 64-byte signature value (all zero bytes). -/
def sigHex : String := String.mk (List.replicate 128 '0')

/-- Benign world used as the base of the concrete test fixtures: every
outbound call succeeds. -/
def baseWorld : World where
  publicKey := pkHex
  apiKey := none
  jsonLoads := fun _ => none
  b64decode := fun s => .ok s
  b64encode := fun s => s
  ed25519Valid := fun _ _ => true
  db := []
  getItemRaises := false
  updateItemRaises := false
  callbackResp := some (200, "ack")
  dmChannelResp := some (200, some "chan1")
  dmMessageResp := some 200
  imageResp := some (200, "image/png", "imgbytes")
  urllibResp := some "imgbytes"
  openaiResp := some (200, some "Glass bottles and Metal scraps")

/-- Event carrying well-formed signature headers and the given body. -/
def evWith (body : String) : Event where
  signature? := some sigHex
  timestamp? := some "1"
  body := body
  isBase64Encoded := false

/-- Restatement of the spec's award rule for comparison with the code
(claim C4): the sum, over the fixed category table, of the values of exactly
those keywords that occur as a substring of the text. -/
def specTokenAward (d : String) : Nat :=
  ((token_mapping.filter (fun p => pyIn p.1 d)).map (fun p => p.2)).sum

/-- Fixed user-visible messages produced by the explicit `error_response`
call sites of app.py (the sanitized vocabulary). -/
def sanitizedMessages : List String :=
  ["Invalid JSON", "Invalid request signature", "Unknown command",
   "Invalid request payload", "Internal server error", "Invalid user information",
   "Invalid item", "Failed to send interaction response",
   "Failed to analyze the image", "Failed to process the image"]

/-- Shape of every response the try-block of `lambda_handler` can return:
a sanitized error response, the ping acknowledgement, or the callback
passthrough. -/
def OkShape (w : World) (r : Response) : Prop :=
  (∃ code m, (code = 400 ∨ code = 401 ∨ code = 500) ∧ m ∈ sanitizedMessages
    ∧ r = error_response code m)
  ∨ r = successful_response .typeAck
  ∨ (∃ s t, w.callbackResp = some (s, t) ∧ statusRaises s = false
      ∧ r = { statusCode := s, headers := stdHeaders, body := .raw t })

/-- Test for a balance-read effect. -/
def isReadEff : Eff → Bool
  | .readBalance _ => true
  | _ => false

/-- Test for a balance-write effect. -/
def isWriteEff : Eff → Bool
  | .writeBalance _ _ => true
  | _ => false

/-- Test for an outbound notification effect (DM channel creation, DM
message post, or the interaction-callback post). -/
def isNotifyEff : Eff → Bool
  | .dmChannelCreate _ => true
  | .dmMessageSend _ => true
  | .callbackPost _ => true
  | _ => false

/-- Interaction body of a `buy item1` invocation by user `u`. -/
def bjBuy : BodyJson :=
  { memberUserId? := some "u", dataName? := some "buy", dataOptions? := some ["item1"] }

/-- Interaction body of a `submit_image` invocation by user `u`. -/
def bjSubmit : BodyJson :=
  { memberUserId? := some "u", dataName? := some "submit_image",
    dataOptions? := some ["http://img.example/x"] }

/-- World whose configured public key cannot validate anything (the Ed25519
oracle rejects every signature). -/
def wInvalidSig : World :=
  { baseWorld with ed25519Valid := fun _ _ => false }

/-- World in which every body parses to the empty envelope. -/
def wParsed : World :=
  { baseWorld with jsonLoads := fun _ => some {} }

/-- World in which every body parses but no signature validates. -/
def wParsedBadSig : World :=
  { wParsed with ed25519Valid := fun _ _ => false }

/-- World with user `u` owning 5 tokens. -/
def wPoor : World :=
  { baseWorld with db := [("u", 5)] }

/-- World with user `u` owning 15 tokens. -/
def wRich : World :=
  { baseWorld with db := [("u", 15)] }

/-- World with user `u` owning 15 tokens and a DM channel-creation response
that passes `raise_for_status` but carries no `id` field. -/
def wDmNoId : World :=
  { baseWorld with db := [("u", 15)], dmChannelResp := some (200, none) }

/-- World with user `u` owning 15 tokens and a DM channel creation that
raises a transport-level `requests.RequestException`. -/
def wDmExn : World :=
  { baseWorld with db := [("u", 15)], dmChannelResp := none }

/-- World whose image download returns a non-image content type. -/
def wHtml : World :=
  { baseWorld with imageResp := some (200, "text/html", "page") }

/-- World whose primary image fetch raises at the transport level, before
any response object is bound. -/
def wImgExn : World :=
  { baseWorld with imageResp := none }

/-- Event with no signature header at all. -/
def evNoSig : Event :=
  { signature? := none, timestamp? := some "1", body := "b", isBase64Encoded := false }

/-- Event whose signature header is not a hexadecimal string. -/
def evBadHex : Event :=
  { signature? := some "zz", timestamp? := some "1", body := "b", isBase64Encoded := false }

theorem isPrefixL_iff (p : List Char) : ∀ s, isPrefixL p s = true ↔ ∃ r, s = p ++ r := by
  induction p with
  | nil => intro s; simp [isPrefixL]
  | cons a as ih =>
    intro s
    cases s with
    | nil => simp [isPrefixL]
    | cons b bs =>
      simp only [isPrefixL, Bool.and_eq_true, beq_iff_eq, ih, List.cons_append,
        List.cons.injEq]
      constructor
      · rintro ⟨hab, r, hr⟩; exact ⟨r, hab.symm, hr⟩
      · rintro ⟨r, hab, hr⟩; exact ⟨hab.symm, r, hr⟩

theorem isSubL_iff (p : List Char) : ∀ s, isSubL p s = true ↔ ∃ l r, s = l ++ p ++ r := by
  intro s
  induction s with
  | nil =>
    simp only [isSubL, List.isEmpty_iff]
    constructor
    · intro h; exact ⟨[], [], by simp [h]⟩
    · rintro ⟨l, r, hr⟩
      rcases List.append_eq_nil.mp (List.append_eq_nil.mp hr.symm).1 with ⟨-, h2⟩
      exact h2
  | cons c rest ih =>
    simp only [isSubL, Bool.or_eq_true, isPrefixL_iff, ih]
    constructor
    · rintro (⟨r, hr⟩ | ⟨l, r, hr⟩)
      · exact ⟨[], r, by simpa using hr⟩
      · exact ⟨c :: l, r, by simp [hr]⟩
    · rintro ⟨l, r, hr⟩
      cases l with
      | nil => exact .inl ⟨r, by simpa using hr⟩
      | cons c' l' =>
        simp only [List.cons_append, List.cons.injEq] at hr
        exact .inr ⟨l', r, hr.2⟩

/-- Grounding of the substring model: `pyIn pat hay` holds exactly when the
character sequence of `pat` occurs contiguously inside that of `hay`. -/
theorem pyIn_iff (pat hay : String) :
    pyIn pat hay = true ↔ ∃ l r, hay.data = l ++ pat.data ++ r :=
  isSubL_iff pat.data hay.data

theorem foldl_award (p : String → Bool) :
    ∀ (l : List (String × Nat)) (acc : Nat),
      l.foldl (fun a q => if p q.1 then a + q.2 else a) acc
        = acc + ((l.filter (fun q => p q.1)).map (fun q => q.2)).sum := by
  intro l
  induction l with
  | nil => simp
  | cons h t ih =>
    intro acc
    by_cases hp : p h.1 <;>
      simp [List.foldl_cons, List.filter_cons, hp, ih, Nat.add_assoc]

theorem dbGet_dbSet_self : ∀ (db : List (String × Int)) (u : String) (v : Int),
    dbGet (dbSet db u v) u = some v := by
  intro db u v
  induction db with
  | nil => simp [dbGet, dbSet]
  | cons h t ih =>
    cases hu : (h.1 == u) with
    | true => simp [dbGet, dbSet, hu, List.find?_cons]
    | false => simpa [dbGet, dbSet, hu, List.find?_cons] using ih

theorem dbGet_dbSet_ne : ∀ (db : List (String × Int)) (u u' : String) (v : Int),
    u' ≠ u → dbGet (dbSet db u v) u' = dbGet db u' := by
  intro db u u' v hne
  have hpair : (u == u') = false := by
    simpa [beq_iff_eq] using fun h => hne h.symm
  induction db with
  | nil => simp [dbGet, dbSet, List.find?_cons, hpair]
  | cons h t ih =>
    cases hu : (h.1 == u) with
    | true =>
      have h2 : (h.1 == u') = false := by
        have h1 : h.1 = u := by simpa [beq_iff_eq] using hu
        simpa [h1, beq_iff_eq] using fun h => hne h.symm
      simp [dbGet, dbSet, hu, List.find?_cons, hpair, h2]
    | false =>
      cases hfind : (h.1 == u') with
      | true => simp [dbGet, dbSet, hu, List.find?_cons, hfind]
      | false => simpa [dbGet, dbSet, hu, List.find?_cons, hfind] using ih

theorem get_user_tokens_eq (w : World) (u : String) (st : St) :
    get_user_tokens w u st
      = ({ st with trace := st.trace ++ [.readBalance u] },
         if w.getItemRaises then 0 else (dbGet st.db u).getD 0) := by
  cases hr : w.getItemRaises <;> simp [get_user_tokens, hr]

theorem update_user_tokens_eq (w : World) (u : String) (a : Int) (st : St) :
    update_user_tokens w u a st
      = { db := if w.updateItemRaises then st.db else dbSet st.db u ((dbGet st.db u).getD 0 + a),
          trace := st.trace ++ [.writeBalance u a] } := by
  cases hr : w.updateItemRaises <;> simp [update_user_tokens, hr]

theorem send_interaction_response_fst (w : World) (iid itok : Option String)
    (c : String) (st : St) :
    (send_interaction_response w iid itok c st).1
      = { st with trace := st.trace ++ [.callbackPost c] } := by
  unfold send_interaction_response
  rcases w.callbackResp with _ | ⟨s, t⟩
  · rfl
  · simp only []
    split <;> rfl

theorem send_interaction_response_eq (w : World) (iid itok : Option String)
    (c : String) (st : St) :
    send_interaction_response w iid itok c st
      = ({ st with trace := st.trace ++ [.callbackPost c] }, callbackView w) := by
  unfold send_interaction_response callbackView
  rcases w.callbackResp with - | ⟨s, t⟩
  · rfl
  · dsimp only
    split <;> rfl

theorem send_dm_with_embed_db (w : World) (u item : String) (price : Int) (st : St) :
    (send_dm_with_embed w u item price st).1.db = st.db := by
  unfold send_dm_with_embed
  rcases w.dmChannelResp with _ | ⟨s, idf⟩
  · rfl
  · simp only []
    split
    · rfl
    · rcases idf with _ | cid
      · rfl
      · rcases w.dmMessageResp with _ | s2 <;> rfl

theorem send_dm_with_embed_swallow (w : World) (u item : String) (price : Int) (st : St)
    (h : match w.dmChannelResp with
         | some (s, none) => statusRaises s = true
         | _ => True) :
    (send_dm_with_embed w u item price st).2 = none := by
  unfold send_dm_with_embed
  rcases hch : w.dmChannelResp with - | ⟨s, idf⟩
  · rfl
  · rcases idf with - | cid
    · rw [hch] at h
      simp only [] at h
      simp [h]
    · simp only []
      split
      · rfl
      · rcases w.dmMessageResp with - | s2 <;> rfl

theorem send_dm_with_embed_keyerror (w : World) (u item : String) (price : Int) (st : St)
    (s : Nat) (hch : w.dmChannelResp = some (s, none)) (hs : statusRaises s = false) :
    (send_dm_with_embed w u item price st).2 = some (.keyError "id") := by
  simp [send_dm_with_embed, hch, hs]

theorem buy_success_reply_db (w : World) (iid itok : Option String)
    (user_id item : String) (price : Int) (st : St) :
    (buy_success_reply w iid itok user_id item price st).1.db = st.db := by
  unfold buy_success_reply
  rcases hdm : (send_dm_with_embed w user_id item price st).2 with - | e
  · simp only [hdm, send_interaction_response_fst]
    exact send_dm_with_embed_db w user_id item price st
  · simp only [hdm]
    cases e.isKeyError <;> simpa using send_dm_with_embed_db w user_id item price st

theorem send_dm_with_embed_trace (w : World) (u item : String) (price : Int) (st : St) :
    ∃ t, (send_dm_with_embed w u item price st).1.trace = st.trace ++ t
      ∧ t.all isNotifyEff = true := by
  unfold send_dm_with_embed
  rcases w.dmChannelResp with - | ⟨s, idf⟩
  · exact ⟨[.dmChannelCreate u], rfl, rfl⟩
  · simp only []
    split
    · exact ⟨[.dmChannelCreate u], rfl, rfl⟩
    · rcases idf with - | cid
      · exact ⟨[.dmChannelCreate u], rfl, rfl⟩
      · rcases w.dmMessageResp with - | s2 <;>
          exact ⟨[.dmChannelCreate u, .dmMessageSend cid], by simp, rfl⟩

theorem buy_success_reply_trace (w : World) (iid itok : Option String)
    (u item : String) (price : Int) (st : St) :
    ∃ t, (buy_success_reply w iid itok u item price st).1.trace = st.trace ++ t
      ∧ t.all isNotifyEff = true := by
  unfold buy_success_reply
  obtain ⟨t, ht, hall⟩ := send_dm_with_embed_trace w u item price st
  rcases hdm : (send_dm_with_embed w u item price st).2 with - | e
  · simp only [hdm, send_interaction_response_fst]
    refine ⟨t ++ [.callbackPost ("<@" ++ u ++ ">, you bought " ++ item ++ " for "
      ++ toString price ++ " tokens!")], ?_, ?_⟩
    · simp [ht]
    · simp only [List.all_append, hall, Bool.true_and]
      rfl
  · cases hk : e.isKeyError <;> exact ⟨t, by simp [hdm, hk, ht], hall⟩

/-- C4: for every classification text, `extract_tokens_from_description`
returns the sum, over the fixed category table, of the values of exactly
those category keywords that occur as a case-sensitive substring of the text
(each matched category counted once); a text containing "Glass bottles" and
"Metal" yields 2 + 3 = 5; and a successful `submit_image` run credits the
user's balance by exactly that amount. -/
theorem extract_award_matches_spec :
    (∀ d, extract_tokens_from_description d = specTokenAward d)
    ∧ extract_tokens_from_description "Glass bottles and Metal scraps" = 5
    ∧ ∀ (w : World) (bj : BodyJson) (iid itok : Option String) (st : St)
        (u url d : String) (status aiStatus : Nat) (ct content : String),
        bj.memberUserId? = some u →
        getOption0 bj = .ok url →
        w.imageResp = some (status, ct, content) →
        statusRaises status = false →
        pyIn "image" ct = true →
        w.openaiResp = some (aiStatus, some d) →
        statusRaises aiStatus = false →
        w.updateItemRaises = false →
        dbGet (submit_image_command w bj iid itok w.apiKey st).1.db u
          = some ((dbGet st.db u).getD 0 + (extract_tokens_from_description d : Int)) := by
  refine ⟨?_, by decide, ?_⟩
  · intro d
    simpa [extract_tokens_from_description, specTokenAward]
      using foldl_award (fun s => pyIn s d) token_mapping 0
  · intro w bj iid itok st u url d status aiStatus ct content
    intro hMember hOpt hImg hStatus hCt hAI hAIs hUpd
    simp only [submit_image_command, hMember, hOpt, download_image, hImg, hStatus,
      Bool.false_eq_true, if_false, hCt, if_true, hAI, hAIs, get_user_tokens_eq,
      update_user_tokens_eq, hUpd, send_interaction_response_fst]
    simp [dbGet_dbSet_self]

/-- Witness for C4 at a concrete successful run: user u starts absent
(balance 0) and ends credited by the award of the returned text. -/
theorem extract_award_matches_spec_witness :
    dbGet (submit_image_command baseWorld bjSubmit none none baseWorld.apiKey
        (initSt baseWorld)).1.db "u"
      = some ((dbGet (initSt baseWorld).db "u").getD 0
          + (extract_tokens_from_description "Glass bottles and Metal scraps" : Int)) :=
  extract_award_matches_spec.2.2 baseWorld bjSubmit none none (initSt baseWorld)
    "u" "http://img.example/x" "Glass bottles and Metal scraps" 200 200 "image/png"
    "imgbytes" rfl rfl rfl (by decide) (by decide) rfl (by decide) rfl

/-- C3: when the invoking user's balance is strictly below the catalog price,
`buy_command` performs no balance write (the table is unchanged and the trace
holds only the read and the reply post), replies with the not-enough-tokens
message, and returns normally; and, for every `buy` invocation whatsoever, a
nonnegative balance stays nonnegative (the purchase is rejected, not
clamped). -/
theorem buy_insufficient_no_write :
    (∀ (w : World) (bj : BodyJson) (iid itok : Option String) (st : St)
        (u item : String) (pr : String × Int),
        bj.memberUserId? = some u →
        getOption0 bj = .ok item →
        shop_items.find? (fun p => p.1 == item) = some pr →
        w.getItemRaises = false →
        (dbGet st.db u).getD 0 < pr.2 →
        (buy_command w bj iid itok st).1.db = st.db
        ∧ (buy_command w bj iid itok st).1.trace
            = st.trace ++ [.readBalance u,
                .callbackPost ("<@" ++ u ++ ">, you don\x27t have enough tokens to buy "
                  ++ item ++ "!")]
        ∧ ∃ r, (buy_command w bj iid itok st).2 = .ok r)
    ∧ ∀ (w : World) (bj : BodyJson) (iid itok : Option String) (st : St) (u : String),
        0 ≤ (dbGet st.db u).getD 0 →
        0 ≤ (dbGet (buy_command w bj iid itok st).1.db u).getD 0 := by
  constructor
  · intro w bj iid itok st u item pr hMember hOpt hFind hGet hLt
    have hnotle : ¬ pr.2 ≤ (dbGet st.db u).getD 0 := not_le.mpr hLt
    simp only [buy_command, hMember, hOpt, hFind, get_user_tokens_eq, hGet,
      Bool.false_eq_true, if_false, hnotle, if_true, send_interaction_response_fst]
    exact ⟨by simp, by simp, _, rfl⟩
  · intro w bj iid itok st u hnn
    unfold buy_command
    cases hMember : bj.memberUserId? with
    | none => simpa using hnn
    | some user_id =>
      simp only []
      cases hOpt : getOption0 bj with
      | error e =>
        cases hk : e.isKeyError <;> simpa [hk] using hnn
      | ok item =>
        simp only []
        cases hFind : shop_items.find? (fun p => p.1 == item) with
        | none =>
          simpa [send_interaction_response_fst] using hnn
        | some pr =>
          simp only [get_user_tokens_eq]
          by_cases hle : pr.2 ≤ (if w.getItemRaises then 0 else (dbGet st.db user_id).getD 0)
          · simp only [hle, if_true, update_user_tokens_eq, buy_success_reply_db]
            cases hUpd : w.updateItemRaises with
            | true => simpa using hnn
            | false =>
              simp only [Bool.false_eq_true, if_false]
              by_cases huu : u = user_id
              · subst huu
                rw [dbGet_dbSet_self]
                rcases hbal : w.getItemRaises with - | -
                · simp [hbal] at hle
                  simp
                  omega
                · simp [hbal] at hle
                  simp
                  omega
              · rw [dbGet_dbSet_ne _ _ _ _ huu]
                exact hnn
          · simpa [hle, send_interaction_response_fst] using hnn

/-- Witness for C3: user u holds 5 tokens and buys item1 (price 10); the
table is untouched, the trace holds only the read and the refusal reply, and
the command returns normally. -/
theorem buy_insufficient_no_write_witness :
    (buy_command wPoor bjBuy none none (initSt wPoor)).1.db = (initSt wPoor).db
    ∧ (buy_command wPoor bjBuy none none (initSt wPoor)).1.trace
        = (initSt wPoor).trace ++ [.readBalance "u",
            .callbackPost ("<@" ++ "u" ++ ">, you don\x27t have enough tokens to buy "
              ++ "item1" ++ "!")]
    ∧ ∃ r, (buy_command wPoor bjBuy none none (initSt wPoor)).2 = .ok r :=
  buy_insufficient_no_write.1 wPoor bjBuy none none (initSt wPoor) "u" "item1"
    ("item1", 10) rfl rfl (by decide) rfl (by decide)

/-- C1 (refuted on the code): `lambda_handler` attempts `json.loads` before
any signature verification, so every request with both signature headers
whose body is malformed JSON receives the 400 invalid-JSON response — for
any signature value whatsoever, including invalid ones, and without the
Ed25519 oracle ever being consulted. -/
theorem json_parse_precedes_signature_check :
    ∀ (w : World) (e : Event),
      pyFalsy e.signature? = false →
      pyFalsy e.timestamp? = false →
      e.isBase64Encoded = false →
      w.jsonLoads e.body = none →
      (lambda_handler w e).2 = error_response 400 "Invalid JSON" := by
  intro w e h1 h2 h3 h4
  simp [lambda_handler, lambda_core, h1, h2, h3, h4]

/-- Witness for C1 at the failing input: a cryptographically invalid
signature together with a malformed body yields 400 invalid-JSON, where the
claim requires the 401 authorization failure. -/
theorem json_parse_precedes_signature_check_witness :
    (lambda_handler wInvalidSig (evWith "not json")).2 = error_response 400 "Invalid JSON" :=
  json_parse_precedes_signature_check wInvalidSig (evWith "not json")
    (by decide) (by decide) rfl rfl

/-- C2 counterexample: a request whose signature header is the non-hex
string "zz" raises `ValueError` inside verification; the response is the 400
response carrying the fromhex exception text, not the 401
authorization failure the claim requires. -/
theorem malformed_hex_signature_yields_400 :
    (lambda_handler wParsed evBadHex).2 = error_response 400 (fromhexErrMsg 0)
    ∧ (lambda_handler wParsed evBadHex).2.statusCode ≠ 401 := by decide

/-- C2 amended: only `BadSignatureError` (a well-formed 64-byte signature
that fails Ed25519 verification) is mapped to the 401 response; the
`ValueError` raised for a malformed signature value (non-hex text or a
wrong-length byte string) escapes the verification try-block and is mapped
by the outer handler to a 400 response carrying the exception's own message.
No verification exception propagates out of `lambda_handler`. -/
theorem verify_exception_mapping :
    ∀ (w : World) (e : Event) (bj : BodyJson) (kb : List Nat),
      pyFalsy e.signature? = false →
      pyFalsy e.timestamp? = false →
      e.isBase64Encoded = false →
      w.jsonLoads e.body = some bj →
      bytesFromhex w.publicKey = .ok kb →
      kb.length = 32 →
      (∀ m, bytesFromhex (e.signature?.getD "") = .error m →
        (lambda_handler w e).2 = error_response 400 m)
      ∧ (∀ sb, bytesFromhex (e.signature?.getD "") = .ok sb → sb.length ≠ 64 →
        (lambda_handler w e).2
          = error_response 400 "The signature must be exactly 64 bytes long")
      ∧ (∀ sb, bytesFromhex (e.signature?.getD "") = .ok sb → sb.length = 64 →
        w.ed25519Valid (e.timestamp?.getD "" ++ e.body) sb = false →
        (lambda_handler w e).2 = error_response 401 "Invalid request signature") := by
  intro w e bj kb h1 h2 h3 h4 h5 h6
  refine ⟨?_, ?_, ?_⟩
  · intro m hm
    simp [lambda_handler, lambda_core, h1, h2, h3, h4, h5, h6, hm]
  · intro sb hsb hlen
    simp [lambda_handler, lambda_core, h1, h2, h3, h4, h5, h6, hsb, hlen]
  · intro sb hsb hlen hbad
    simp [lambda_handler, lambda_core, h1, h2, h3, h4, h5, h6, hsb, hlen, hbad]

/-- Witness for C2 amended, at the BadSignatureError case: a well-formed
64-byte signature rejected by the Ed25519 oracle yields exactly the 401
response. -/
theorem verify_exception_mapping_witness :
    (lambda_handler wParsedBadSig (evWith "b")).2
      = error_response 401 "Invalid request signature" :=
  (verify_exception_mapping wParsedBadSig (evWith "b") {} (List.replicate 32 0)
    (by decide) (by decide) rfl rfl (by decide) (by decide)).2.2
    (List.replicate 64 0) (by decide) (by decide) rfl

/-- C5 counterexample: with sufficient funds, a DM channel-creation response
that passes `raise_for_status` but lacks an `id` field makes the
notification attempt raise `KeyError`; `buy_command` then returns the 400
invalid-item error response — not the purchase-confirmation reply the claim
promises — while the balance decrement (15 to 5) is kept. -/
theorem buy_dm_keyerror_fails_command :
    (buy_command wDmNoId bjBuy none none (initSt wDmNoId)).2
      = .ok (error_response 400 "Invalid item")
    ∧ dbGet (buy_command wDmNoId bjBuy none none (initSt wDmNoId)).1.db "u" = some 5 := by
  decide

/-- C5 amended: a notification failure never rolls back the decrement; when
the failure is one `send_dm_with_embed` swallows (a transport-level
`requests.RequestException` or an error status on either DM call) the
command still returns the normal confirmation reply, but when the
channel-creation response lacks an `id` field the escaping `KeyError` makes
the command return the 400 invalid-item error response instead, the
decrement again being kept. -/
theorem buy_notification_failure_policy :
    ∀ (w : World) (bj : BodyJson) (iid itok : Option String) (st : St)
      (u item : String) (pr : String × Int),
      bj.memberUserId? = some u →
      getOption0 bj = .ok item →
      shop_items.find? (fun p => p.1 == item) = some pr →
      w.getItemRaises = false →
      w.updateItemRaises = false →
      pr.2 ≤ (dbGet st.db u).getD 0 →
      ((match w.dmChannelResp with
        | some (s, none) => statusRaises s = true
        | _ => True) →
        ∀ cs ct, w.callbackResp = some (cs, ct) → statusRaises cs = false →
        (buy_command w bj iid itok st).2
          = .ok { statusCode := cs, headers := stdHeaders, body := .raw ct }
        ∧ dbGet (buy_command w bj iid itok st).1.db u
            = some ((dbGet st.db u).getD 0 - pr.2))
      ∧ (∀ s, w.dmChannelResp = some (s, none) → statusRaises s = false →
        (buy_command w bj iid itok st).2 = .ok (error_response 400 "Invalid item")
        ∧ dbGet (buy_command w bj iid itok st).1.db u
            = some ((dbGet st.db u).getD 0 - pr.2)) := by
  intro w bj iid itok st u item pr hMember hOpt hFind hGet hUpd hle
  have hsucc : buy_command w bj iid itok st
      = buy_success_reply w iid itok u item pr.2
          { db := dbSet st.db u ((dbGet st.db u).getD 0 + -pr.2),
            trace := st.trace ++ [.readBalance u, .writeBalance u (-pr.2)] } := by
    simp [buy_command, hMember, hOpt, hFind, get_user_tokens_eq, hGet, hle,
      update_user_tokens_eq, hUpd]
  have hdb : ∀ st' : St,
      dbGet (buy_success_reply w iid itok u item pr.2 st').1.db u
        = dbGet st'.db u := by
    intro st'
    rw [buy_success_reply_db]
  constructor
  · intro hswallow cs ct hcb hcbs
    have hdm := send_dm_with_embed_swallow w u item pr.2
      { db := dbSet st.db u ((dbGet st.db u).getD 0 + -pr.2),
        trace := st.trace ++ [.readBalance u, .writeBalance u (-pr.2)] } hswallow
    rw [hsucc]
    constructor
    · unfold buy_success_reply
      simp [hdm, send_interaction_response, hcb, hcbs]
    · rw [hdb]
      simp only []
      rw [dbGet_dbSet_self]
      simp [sub_eq_add_neg]
  · intro s hch hs
    have hdm := send_dm_with_embed_keyerror w u item pr.2
      { db := dbSet st.db u ((dbGet st.db u).getD 0 + -pr.2),
        trace := st.trace ++ [.readBalance u, .writeBalance u (-pr.2)] } s hch hs
    rw [hsucc]
    constructor
    · unfold buy_success_reply
      simp [hdm, PyExc.isKeyError]
    · rw [hdb]
      simp only []
      rw [dbGet_dbSet_self]
      simp [sub_eq_add_neg]

/-- Witness for C5 amended: a transport-level DM failure leaves the
decrement (15 to 5) in place and the command still returns the normal
passthrough reply. -/
theorem buy_notification_failure_policy_witness :
    (buy_command wDmExn bjBuy none none (initSt wDmExn)).2
      = .ok { statusCode := 200, headers := stdHeaders, body := .raw "ack" }
    ∧ dbGet (buy_command wDmExn bjBuy none none (initSt wDmExn)).1.db "u"
        = some ((dbGet (initSt wDmExn).db "u").getD 0 - 10) :=
  (buy_notification_failure_policy wDmExn bjBuy none none (initSt wDmExn)
    "u" "item1" ("item1", 10) rfl rfl (by decide) rfl rfl (by decide)).1
    trivial 200 "ack" rfl (by decide)

/-- C6 counterexample: a download whose content type is `text/html` makes
`submit_image_command` return the 500 error envelope (the sanitized
analysis-failure message), not a 200 chat reply as the claim requires. -/
theorem nonimage_content_type_yields_500 :
    (submit_image_command wHtml bjSubmit none none wHtml.apiKey (initSt wHtml)).2
      = error_response 500 "Failed to analyze the image"
    ∧ (submit_image_command wHtml bjSubmit none none wHtml.apiKey (initSt wHtml)).2.statusCode
        ≠ 200 := by
  decide

/-- C6 amended: a non-image content type raises `ValueError`, which the
generic `except Exception` clause of `submit_image_command` converts into
the 500 error envelope with the sanitized analysis-failure message; no
balance access and no classification call happens (the trace gains only the
image fetch). -/
theorem nonimage_content_type_handling :
    ∀ (w : World) (bj : BodyJson) (iid itok : Option String) (st : St)
      (u url : String) (s : Nat) (ct c : String),
      bj.memberUserId? = some u →
      getOption0 bj = .ok url →
      w.imageResp = some (s, ct, c) →
      statusRaises s = false →
      pyIn "image" ct = false →
      submit_image_command w bj iid itok w.apiKey st
        = ({ st with trace := st.trace ++ [.httpGetImage url] },
           error_response 500 "Failed to analyze the image") := by
  intro w bj iid itok st u url s ct c hMember hOpt hImg hs hct
  simp [submit_image_command, download_image, submitExcResponse,
    PyExc.isRequestExc, PyExc.isKeyError, hMember, hOpt, hImg, hs, hct]

/-- Witness for C6 amended at the concrete text/html world. -/
theorem nonimage_content_type_handling_witness :
    submit_image_command wHtml bjSubmit none none wHtml.apiKey (initSt wHtml)
      = ({ initSt wHtml with
            trace := (initSt wHtml).trace ++ [.httpGetImage "http://img.example/x"] },
         error_response 500 "Failed to analyze the image") :=
  nonimage_content_type_handling wHtml bjSubmit none none (initSt wHtml)
    "u" "http://img.example/x" 200 "text/html" "page" rfl rfl rfl (by decide) (by decide)

/-- C7 (refuted on the code): when the primary fetch fails at the transport
level (no response object bound), the except block's debug print raises
`UnboundLocalError` and the urllib fallback is never attempted (no
`urllibGet` effect); the fallback runs only when the primary failure is an
HTTP error status on a received response. -/
theorem download_fallback_divergence :
    ∀ (w : World) (url : String) (st : St),
      (w.imageResp = none →
        download_image w url st
          = ({ st with trace := st.trace ++ [.httpGetImage url] },
             .error (.unboundLocalError "response")))
      ∧ (∀ s ct c, w.imageResp = some (s, ct, c) → statusRaises s = true →
        download_image w url st
          = download_image_with_urllib w url
              { st with trace := st.trace ++ [.httpGetImage url] }) := by
  intro w url st
  constructor
  · intro h
    simp [download_image, h]
  · intro s ct c h hs
    simp [download_image, h, hs]

/-- Witness for C7 at the failing input: a transport-level primary failure
ends in `UnboundLocalError` with no urllib attempt in the trace. -/
theorem download_fallback_divergence_witness :
    download_image wImgExn "http://img.example/x" (initSt wImgExn)
      = ({ initSt wImgExn with
            trace := (initSt wImgExn).trace ++ [.httpGetImage "http://img.example/x"] },
         .error (.unboundLocalError "response")) :=
  (download_fallback_divergence wImgExn "http://img.example/x" (initSt wImgExn)).1 rfl

/-- C8 counterexample: in a successful `submit_image` run the first (and
only) balance read sits at trace index 3, after the balance write at index
2 — the balance read does not strictly precede the balance write for the
`submit_image` handler. -/
theorem submit_image_write_precedes_read :
    (submit_image_command baseWorld bjSubmit none none baseWorld.apiKey
        (initSt baseWorld)).1.trace.findIdx? isWriteEff = some 2
    ∧ (submit_image_command baseWorld bjSubmit none none baseWorld.apiKey
        (initSt baseWorld)).1.trace.findIdx? isReadEff = some 3 := by
  decide

/-- C8 amended: within one request, for `buy` the balance read strictly
precedes the balance write and everything after the write is a notification
attempt; for `submit_image` the balance write precedes the only balance read
and the subsequent reply post — the write always precedes any notification
attempt, but for `submit_image` it also precedes the read. -/
theorem balance_access_ordering :
    (∀ (w : World) (bj : BodyJson) (iid itok : Option String)
        (db : List (String × Int)) (u item : String) (pr : String × Int),
        bj.memberUserId? = some u →
        getOption0 bj = .ok item →
        shop_items.find? (fun p => p.1 == item) = some pr →
        w.getItemRaises = false →
        pr.2 ≤ (dbGet db u).getD 0 →
        ∃ t, (buy_command w bj iid itok { db := db, trace := [] }).1.trace
            = .readBalance u :: .writeBalance u (-pr.2) :: t
          ∧ t.all isNotifyEff = true)
    ∧ ∀ (w : World) (bj : BodyJson) (iid itok : Option String)
        (db : List (String × Int)) (u url d : String) (status aiStatus : Nat)
        (ct content : String),
        bj.memberUserId? = some u →
        getOption0 bj = .ok url →
        w.imageResp = some (status, ct, content) →
        statusRaises status = false →
        pyIn "image" ct = true →
        w.openaiResp = some (aiStatus, some d) →
        statusRaises aiStatus = false →
        ∃ m, (submit_image_command w bj iid itok w.apiKey { db := db, trace := [] }).1.trace
          = [.httpGetImage url, .openaiPost,
             .writeBalance u (Int.ofNat (extract_tokens_from_description d)),
             .readBalance u, .callbackPost m] := by
  constructor
  · intro w bj iid itok db u item pr hMember hOpt hFind hGet hle
    have hsucc : ∃ d2, buy_command w bj iid itok { db := db, trace := [] }
        = buy_success_reply w iid itok u item pr.2
            { db := d2, trace := [.readBalance u, .writeBalance u (-pr.2)] } := by
      cases hUpd : w.updateItemRaises with
      | false =>
        exact ⟨dbSet db u ((dbGet db u).getD 0 + -pr.2),
          by simp [buy_command, hMember, hOpt, hFind, get_user_tokens_eq, hGet, hle,
            update_user_tokens_eq, hUpd]⟩
      | true =>
        exact ⟨db,
          by simp [buy_command, hMember, hOpt, hFind, get_user_tokens_eq, hGet, hle,
            update_user_tokens_eq, hUpd]⟩
    obtain ⟨d2, hsucc⟩ := hsucc
    rw [hsucc]
    obtain ⟨t, ht, hall⟩ := buy_success_reply_trace w iid itok u item pr.2
      { db := d2, trace := [.readBalance u, .writeBalance u (-pr.2)] }
    exact ⟨t, by simpa using ht, hall⟩
  · intro w bj iid itok db u url d status aiStatus ct content
    intro hMember hOpt hImg hStatus hCt hAI hAIs
    cases hUpd : w.updateItemRaises <;>
      simp [submit_image_command, hMember, hOpt, download_image, hImg, hStatus,
        hCt, hAI, hAIs, get_user_tokens_eq, update_user_tokens_eq, hUpd,
        send_interaction_response_fst]

/-- Witness for C8 amended, buy side: with 15 tokens buying item1, the trace
starts with the read then the write, and the rest are notification posts. -/
theorem balance_access_ordering_witness :
    ∃ t, (buy_command wRich bjBuy none none { db := wRich.db, trace := [] }).1.trace
        = .readBalance "u" :: .writeBalance "u" (-(("item1", (10 : Int)).2)) :: t
      ∧ t.all isNotifyEff = true :=
  balance_access_ordering.1 wRich bjBuy none none wRich.db "u" "item1" ("item1", 10)
    rfl rfl (by decide) rfl (by decide)

theorem okShape_err (w : World) (code : Nat) (m : String)
    (h1 : code = 400 ∨ code = 401 ∨ code = 500) (h2 : m ∈ sanitizedMessages) :
    OkShape w (error_response code m) :=
  .inl ⟨code, m, h1, h2, rfl⟩

theorem callbackView_shape (w : World) : OkShape w (callbackView w) := by
  unfold callbackView
  rcases hcb : w.callbackResp with - | ⟨s, t⟩
  · exact okShape_err w 500 _ (by simp) (by decide)
  · dsimp only
    cases hs : statusRaises s with
    | false =>
      rw [if_neg (by simp)]
      exact .inr (.inr ⟨s, t, hcb, hs, rfl⟩)
    | true =>
      rw [if_pos rfl]
      exact okShape_err w 500 _ (by simp) (by decide)

theorem send_interaction_response_shape (w : World) (iid itok : Option String)
    (c : String) (st : St) :
    OkShape w (send_interaction_response w iid itok c st).2 := by
  rw [send_interaction_response_eq]
  exact callbackView_shape w

theorem balance_command_shape (w : World) (bj : BodyJson) (iid itok : Option String)
    (st : St) : OkShape w (balance_command w bj iid itok st).2 := by
  unfold balance_command
  cases bj.memberUserId? with
  | none => exact okShape_err w 400 _ (by simp) (by decide)
  | some u =>
    simp only [get_user_tokens_eq]
    exact send_interaction_response_shape w iid itok _ _

theorem shop_command_shape (w : World) (bj : BodyJson) (iid itok : Option String)
    (st : St) : OkShape w (shop_command w bj iid itok st).2 := by
  unfold shop_command
  exact send_interaction_response_shape w iid itok _ _

theorem buy_success_reply_shape (w : World) (iid itok : Option String)
    (u item : String) (price : Int) (st : St) :
    ∀ r, (buy_success_reply w iid itok u item price st).2 = .ok r → OkShape w r := by
  intro r hr
  unfold buy_success_reply at hr
  rcases hdmp : send_dm_with_embed w u item price st with ⟨st1, dmExc⟩
  rcases dmExc with - | e
  · simp only [hdmp, send_interaction_response_eq, Except.ok.injEq] at hr
    subst hr
    exact callbackView_shape w
  · simp only [hdmp] at hr
    cases hk : e.isKeyError with
    | true =>
      rw [if_pos hk] at hr
      dsimp only at hr
      cases hr
      exact okShape_err w 400 _ (by simp) (by decide)
    | false =>
      rw [if_neg (by simp [hk])] at hr
      simp at hr

theorem buy_command_shape (w : World) (bj : BodyJson) (iid itok : Option String)
    (st : St) :
    ∀ r, (buy_command w bj iid itok st).2 = .ok r → OkShape w r := by
  intro r hr
  unfold buy_command at hr
  cases hm : bj.memberUserId? with
  | none =>
    rw [hm] at hr
    dsimp only at hr
    cases hr
    exact okShape_err w 400 _ (by simp) (by decide)
  | some u =>
    rw [hm] at hr
    dsimp only at hr
    rcases ho : getOption0 bj with e | item
    · rw [ho] at hr
      dsimp only at hr
      cases hk : e.isKeyError with
      | true =>
        rw [if_pos hk] at hr
        dsimp only at hr
        cases hr
        exact okShape_err w 400 _ (by simp) (by decide)
      | false =>
        rw [if_neg (by simp [hk])] at hr
        simp at hr
    · rw [ho] at hr
      dsimp only at hr
      rcases hf : shop_items.find? (fun p => p.1 == item) with - | pr
      · rw [hf] at hr
        simp only [send_interaction_response_eq, Except.ok.injEq] at hr
        subst hr
        exact callbackView_shape w
      · rw [hf] at hr
        simp only [get_user_tokens_eq] at hr
        by_cases hle : pr.2 ≤ (if w.getItemRaises then 0 else (dbGet st.db u).getD 0)
        · rw [if_pos hle] at hr
          exact buy_success_reply_shape w iid itok u item pr.2 _ r hr
        · rw [if_neg hle] at hr
          simp only [send_interaction_response_eq, Except.ok.injEq] at hr
          subst hr
          exact callbackView_shape w

theorem submitExcResponse_shape (w : World) (e : PyExc) :
    OkShape w (submitExcResponse e) := by
  unfold submitExcResponse
  split_ifs <;> exact okShape_err w 500 _ (by simp) (by decide)

theorem submit_image_command_shape (w : World) (bj : BodyJson)
    (iid itok : Option String) (k : Option String) (st : St) :
    OkShape w (submit_image_command w bj iid itok k st).2 := by
  unfold submit_image_command
  cases hm : bj.memberUserId? with
  | none =>
    dsimp only
    exact submitExcResponse_shape w _
  | some u =>
    dsimp only
    rcases ho : getOption0 bj with e | url
    · dsimp only
      exact submitExcResponse_shape w _
    · dsimp only
      rcases hdl : download_image w url st with ⟨st1, res⟩
      rcases res with e | image_bytes
      · dsimp only
        exact submitExcResponse_shape w _
      · dsimp only
        rcases hai : w.openaiResp with - | ⟨s, cf⟩
        · dsimp only
          exact submitExcResponse_shape w _
        · dsimp only
          cases hs : statusRaises s with
          | true =>
            rw [if_pos rfl]
            dsimp only
            exact submitExcResponse_shape w _
          | false =>
            rw [if_neg (by simp)]
            rcases cf with - | d
            · dsimp only
              exact submitExcResponse_shape w _
            · simp only [get_user_tokens_eq, update_user_tokens_eq,
                send_interaction_response_eq]
              exact callbackView_shape w

theorem handle_command_shape (w : World) (bj : BodyJson) (iid itok : Option String)
    (st : St) : OkShape w (handle_command w bj iid itok st).2 := by
  unfold handle_command
  dsimp only
  split_ifs with h1 h2 h3 h4
  · exact balance_command_shape w bj iid itok st
  · exact shop_command_shape w bj iid itok st
  · rcases hbuy : buy_command w bj iid itok st with ⟨st2, res⟩
    rcases res with e | r
    · dsimp only
      cases hk : e.isKeyError with
      | true =>
        rw [if_pos rfl]
        exact okShape_err w 400 _ (by simp) (by decide)
      | false =>
        rw [if_neg (by simp)]
        exact okShape_err w 500 _ (by simp) (by decide)
    · dsimp only
      exact buy_command_shape w bj iid itok st r (by rw [hbuy])
  · exact submit_image_command_shape w bj iid itok w.apiKey st
  · exact okShape_err w 400 _ (by simp) (by decide)

theorem lambda_core_shape (w : World) (e : Event) (st : St) :
    ∀ r, (lambda_core w e st).2 = .ok r → OkShape w r := by
  intro r hr
  unfold lambda_core at hr
  by_cases hsig : (pyFalsy e.signature? || pyFalsy e.timestamp?) = true
  · rw [if_pos hsig] at hr
    simp at hr
  · rw [if_neg hsig] at hr
    dsimp only at hr
    rcases hb64 : (if e.isBase64Encoded then w.b64decode e.body else Except.ok e.body)
        with m | body
    · rw [hb64] at hr
      simp at hr
    · rw [hb64] at hr
      dsimp only at hr
      rcases hjson : w.jsonLoads body with - | bj
      · rw [hjson] at hr
        dsimp only at hr
        cases hr
        exact okShape_err w 400 _ (by simp) (by decide)
      · rw [hjson] at hr
        dsimp only at hr
        rcases hpk : bytesFromhex w.publicKey with m | kb
        · rw [hpk] at hr
          simp at hr
        · rw [hpk] at hr
          dsimp only at hr
          by_cases hkl : kb.length ≠ 32
          · rw [if_pos hkl] at hr
            simp at hr
          · rw [if_neg hkl] at hr
            rcases hsb : bytesFromhex (e.signature?.getD "") with m | sb
            · rw [hsb] at hr
              simp at hr
            · rw [hsb] at hr
              dsimp only at hr
              by_cases hsl : sb.length ≠ 64
              · rw [if_pos hsl] at hr
                simp at hr
              · rw [if_neg hsl] at hr
                cases hv : w.ed25519Valid (e.timestamp?.getD "" ++ body) sb with
                | false =>
                  rw [hv, if_pos (by decide)] at hr
                  dsimp only at hr
                  cases hr
                  exact okShape_err w 401 _ (by simp) (by decide)
                | true =>
                  rw [hv, if_neg (by decide)] at hr
                  by_cases hping : (bj.type? == some 1) = true
                  · rw [if_pos hping] at hr
                    dsimp only at hr
                    cases hr
                    exact .inr (.inl rfl)
                  · rw [if_neg hping] at hr
                    dsimp only at hr
                    rcases hhc : handle_command w bj bj.id? bj.token? st with ⟨st3, r3⟩
                    rw [hhc] at hr
                    dsimp only at hr
                    cases hr
                    have h := handle_command_shape w bj bj.id? bj.token? st
                    rw [hhc] at h
                    exact h

theorem lambda_handler_shape (w : World) (e : Event) :
    OkShape w (lambda_handler w e).2
    ∨ ∃ m, (lambda_core w e (initSt w)).2 = .error (.valueError m)
        ∧ (lambda_handler w e).2 = error_response 400 m := by
  unfold lambda_handler
  rcases hcore : lambda_core w e (initSt w) with ⟨st', res⟩
  rcases res with exc | r
  · cases exc
    case valueError m => exact .inr ⟨m, rfl, rfl⟩
    all_goals exact .inl (okShape_err w 500 _ (by simp) (by decide))
  · exact .inl (lambda_core_shape w e (initSt w) r (by rw [hcore]))

/-- C9 counterexample: two requests that take the same failure branch (the
outer `except ValueError` handler) return different user-visible messages —
one the fixed missing-header text, the other the `bytes.fromhex` exception
text, which is internal exception detail and not in the sanitized
vocabulary. -/
theorem same_branch_different_messages :
    (lambda_core wParsed evNoSig (initSt wParsed)).2
      = .error (.valueError "Missing signature or timestamp")
    ∧ (lambda_core wParsed evBadHex (initSt wParsed)).2
      = .error (.valueError (fromhexErrMsg 0))
    ∧ (lambda_handler wParsed evNoSig).2
      = error_response 400 "Missing signature or timestamp"
    ∧ (lambda_handler wParsed evBadHex).2 = error_response 400 (fromhexErrMsg 0)
    ∧ fromhexErrMsg 0 ≠ "Missing signature or timestamp"
    ∧ pyIn "fromhex" (fromhexErrMsg 0) = true
    ∧ ¬ fromhexErrMsg 0 ∈ sanitizedMessages := by
  decide

/-- C9 amended: every user-visible error message is either one of the fixed
sanitized strings, or the request failed through the outer `except
ValueError` handler, in which case the body is exactly `str(e)` of the
escaping `ValueError` — which leaks the exception's own text (fixed for the
missing-header case, internal detail for e.g. a malformed-hex signature). -/
theorem error_message_sanitization :
    ∀ (w : World) (e : Event) (m : String),
      ((lambda_handler w e).2).body = .errJson m →
      m ∈ sanitizedMessages
      ∨ (lambda_core w e (initSt w)).2 = .error (.valueError m) := by
  intro w e m hbody
  rcases lambda_handler_shape w e with hok | ⟨m', hcore, heq⟩
  · left
    rcases hok with ⟨code, m2, h1, h2, hre⟩ | hre | ⟨s, t, hcb, hs, hre⟩
    · rw [hre] at hbody
      simp [error_response] at hbody
      subst hbody
      exact h2
    · rw [hre] at hbody
      simp [successful_response] at hbody
    · rw [hre] at hbody
      simp at hbody
  · right
    rw [heq] at hbody
    simp [error_response] at hbody
    subst hbody
    exact hcore

/-- Witness for C9 amended at a malformed-JSON request: the invalid-JSON
message is accounted as sanitized. -/
theorem error_message_sanitization_witness :
    "Invalid JSON" ∈ sanitizedMessages
    ∨ (lambda_core baseWorld (evWith "x") (initSt baseWorld)).2
        = .error (.valueError "Invalid JSON") :=
  error_message_sanitization baseWorld (evWith "x") "Invalid JSON" (by decide)

/-- C10: `lambda_handler` is total — for every world and event it returns a
response dictionary whose headers are the fixed pair, whose status is 200,
400, 401, 500 or the passthrough status of a successful interaction
callback, and whenever its try-block ends in an exception the outer clauses
convert it into a 400 or 500 response; no exception propagates. -/
theorem lambda_handler_total :
    ∀ (w : World) (e : Event),
      ((lambda_handler w e).2).headers = stdHeaders
      ∧ (((lambda_handler w e).2).statusCode = 200
         ∨ ((lambda_handler w e).2).statusCode = 400
         ∨ ((lambda_handler w e).2).statusCode = 401
         ∨ ((lambda_handler w e).2).statusCode = 500
         ∨ ∃ t, w.callbackResp = some (((lambda_handler w e).2).statusCode, t)
             ∧ ((lambda_handler w e).2).body = .raw t)
      ∧ ∀ exc, (lambda_core w e (initSt w)).2 = .error exc →
          ((lambda_handler w e).2).statusCode = 400
          ∨ ((lambda_handler w e).2).statusCode = 500 := by
  intro w e
  refine ⟨?_, ?_, ?_⟩
  · rcases lambda_handler_shape w e with hok | ⟨m, -, heq⟩
    · rcases hok with ⟨code, m2, h1, h2, hre⟩ | hre | ⟨s, t, hcb, hs, hre⟩ <;>
        rw [hre] <;> rfl
    · rw [heq]
      rfl
  · rcases lambda_handler_shape w e with hok | ⟨m, -, heq⟩
    · rcases hok with ⟨code, m2, h1, h2, hre⟩ | hre | ⟨s, t, hcb, hs, hre⟩
      · rw [hre]
        rcases h1 with h | h | h <;> simp [error_response, h]
      · rw [hre]
        exact .inl rfl
      · rw [hre]
        exact .inr (.inr (.inr (.inr ⟨t, hcb, rfl⟩)))
    · rw [heq]
      exact .inr (.inl rfl)
  · intro exc hexc
    rcases hcore : lambda_core w e (initSt w) with ⟨st', res⟩
    rw [hcore] at hexc
    dsimp only at hexc
    unfold lambda_handler
    rw [hcore]
    subst hexc
    cases exc
    case valueError m => exact .inl rfl
    all_goals exact .inr rfl

/-- Witness for C10 at a concrete exception-raising request (missing
signature header): the converted status is 400 or 500. -/
theorem lambda_handler_total_witness :
    ((lambda_handler wParsed evNoSig).2).statusCode = 400
    ∨ ((lambda_handler wParsed evNoSig).2).statusCode = 500 :=
  (lambda_handler_total wParsed evNoSig).2.2
    (.valueError "Missing signature or timestamp") (by decide)

end App
